import Mathlib

/-!
Shallow embedding of the Canadian Forest Fire Weather Index (FWI) core of
`cffdrs_py`, translated function by function from the Python sources
`cffdrs/fwi.py`, `cffdrs/fwi_numpy.py`, `cffdrs/hffmc.py` and
`cffdrs/raster/buildup_index_raster.py`.

Modelling conventions:
* Python floats are modelled as real numbers (`ℝ`).
* `raise ValueError` is modelled as `Except.error`; functions that can raise
  return `Except Err ℝ`.
* Python's `/` raises `ZeroDivisionError` when the denominator is exactly
  zero.  Divisions whose denominator is structurally forced away from zero on
  every reachable path (by a validation check or by the guarding branch
  condition) are modelled with Lean's total real division.  In
  `hourly_fine_fuel_moisture_code` the previous code value `fo` is never
  validated, so every division whose denominator depends on the inputs
  (`59.5 + fo`, `251 - mo`, `rf = prec`, `FFMC_COEFFICIENT + m`) is modelled
  with an explicit zero test producing `Err.zeroDivision`, in the source's
  evaluation order.
* Python list indexing `tbl[i]` raises `IndexError` when out of bounds; in
  `dc`, whose index expression can leave the table, it is modelled by
  `tableGet` over `List.get?`.  In `dmc` every index is `mon - 1` with the
  month already validated to `1..12`, so the in-bounds lookup is modelled by
  `List.getD`.
* numpy array mode is modelled on lists of reals; `np.any(a < 0)` becomes
  `List.any`; `np.where(c, x, y)` is element-wise `if c then x else y`
  (numpy evaluates both branches but only the selected value reaches the
  output element, which is what the element-wise `if` denotes).
-/

namespace Cffdrs

/-- Error outcomes observable from the Python code: `ValueError` from input
validation, `IndexError` from a list subscript, `ZeroDivisionError` from
float division by zero. -/
inductive Err
  | domain
  | indexError
  | zeroDivision
deriving DecidableEq

noncomputable section

/-- `tbl[i]` with Python semantics: out-of-bounds raises. -/
def tableGet (tbl : List ℝ) (i : ℕ) : Except Err ℝ :=
  match tbl.get? i with
  | some v => Except.ok v
  | none => Except.error Err.indexError

/-- `FFMC_COEFFICIENT = 250.0 * 59.5 / 101.0` (fwi.py line 4). -/
def FFMC_COEFFICIENT : ℝ := 250.0 * 59.5 / 101.0

/-- The final two constraint lines of `ffmc` (fwi.py lines 95-96): clamp the
result to at most 101, then to at least 0. -/
def ffmcClamp (ffmc1 : ℝ) : ℝ :=
  let ffmc1 := if ffmc1 > 101 then 101 else ffmc1
  if ffmc1 < 0 then 0 else ffmc1

theorem ffmcClamp_mem (x : ℝ) : 0 ≤ ffmcClamp x ∧ ffmcClamp x ≤ 101 := by
  rw [ffmcClamp]
  split_ifs <;> constructor <;> linarith

/-- Numeric body of `ffmc` (fwi.py lines 56-97), after validation. -/
def ffmcCompute (ffmc_yda temp rh ws prec : ℝ) : ℝ :=
  -- Eq. 1
  let wmo := FFMC_COEFFICIENT * (101 - ffmc_yda) / (59.5 + ffmc_yda)
  -- Eq. 2 rain reduction for canopy loss
  let ra := if prec > 0.5 then prec - 0.5 else prec
  -- Eqs. 3a and 3b
  let wmo :=
    if prec > 0.5 then
      (if wmo > 150 then
        wmo + 0.0015 * (wmo - 150) * (wmo - 150) * Real.sqrt ra
          + 42.5 * ra * Real.exp (-100 / (251 - wmo)) * (1 - Real.exp (-6.93 / ra))
      else
        wmo + 42.5 * ra * Real.exp (-100 / (251 - wmo)) * (1 - Real.exp (-6.93 / ra)))
    else wmo
  -- cap moisture content at 250
  let wmo := if wmo > 250 then 250 else wmo
  -- Eq. 4 equilibrium moisture content from drying
  let ed := 0.942 * rh ^ (0.679 : ℝ) + 11 * Real.exp ((rh - 100) / 10)
      + 0.18 * (21.1 - temp) * (1 - 1 / Real.exp (rh * 0.115))
  -- Eq. 5 equilibrium moisture content from wetting
  let ew := 0.618 * rh ^ (0.753 : ℝ) + 10 * Real.exp ((rh - 100) / 10)
      + 0.18 * (21.1 - temp) * (1 - 1 / Real.exp (rh * 0.115))
  -- Eq. 6a log drying rate at 21.1 C
  let z :=
    if wmo < ed ∧ wmo < ew then
      0.424 * (1 - ((100 - rh) / 100) ^ (1.7 : ℝ))
        + 0.0694 * Real.sqrt ws * (1 - ((100 - rh) / 100) ^ (8 : ℕ))
    else 0
  -- Eq. 6b effect of temperature on drying rate
  let x := z * 0.581 * Real.exp (0.0365 * temp)
  -- Eq. 8
  let wm := if wmo < ed ∧ wmo < ew then ew - (ew - wmo) / (10 : ℝ) ^ x else wmo
  -- Eq. 7a log wetting rate at 21.1 C
  let z :=
    if wmo > ed then
      0.424 * (1 - (rh / 100) ^ (1.7 : ℝ))
        + 0.0694 * Real.sqrt ws * (1 - (rh / 100) ^ (8 : ℕ))
    else z
  -- Eq. 7b effect of temperature on wetting rate
  let x := z * 0.581 * Real.exp (0.0365 * temp)
  -- Eq. 9
  let wm := if wmo > ed then ed + (wmo - ed) / (10 : ℝ) ^ x else wm
  -- Eq. 10 final ffmc calculation, then the two constraint lines
  ffmcClamp (59.5 * (250 - wm) / (FFMC_COEFFICIENT + wm))

/-- `ffmc` (fwi.py lines 7-97): validation then the numeric body. -/
def ffmc (ffmc_yda temp rh ws prec : ℝ) : Except Err ℝ :=
  if ffmc_yda < 0 ∨ ffmc_yda > 101 then Except.error Err.domain
  else if rh < 0 ∨ rh > 100 then Except.error Err.domain
  else if prec < 0 then Except.error Err.domain
  else if ws < 0 then Except.error Err.domain
  else Except.ok (ffmcCompute ffmc_yda temp rh ws prec)

/-- Claim C6: for every valid input to scalar `ffmc` (`ffmc_yda` in `[0,101]`,
`rh` in `[0,100]`, `ws ≥ 0`, `prec ≥ 0`, any `temp`), the function returns a
value that lies in `[0,101]`. -/
theorem ffmc_in_range (f t r w p : ℝ)
    (hf0 : 0 ≤ f) (hf1 : f ≤ 101) (hr0 : 0 ≤ r) (hr1 : r ≤ 100)
    (hw : 0 ≤ w) (hp : 0 ≤ p) :
    ∃ v, ffmc f t r w p = Except.ok v ∧ 0 ≤ v ∧ v ≤ 101 := by
  refine ⟨ffmcCompute f t r w p, ?_, ?_, ?_⟩
  · rw [ffmc, if_neg (by push_neg; exact ⟨hf0, hf1⟩),
      if_neg (by push_neg; exact ⟨hr0, hr1⟩),
      if_neg (not_lt.mpr hp), if_neg (not_lt.mpr hw)]
  · exact (ffmcClamp_mem _).1
  · exact (ffmcClamp_mem _).2

/-- Witness for C6 at the spec's boundary input `ffmc_yda = 0`, `rh = 100`,
`ws = 0`, `prec = 0` (temperature 20): the call succeeds and the result is in
`[0,101]`. -/
theorem ffmc_in_range_witness :
    ∃ v, ffmc 0 20 100 0 0 = Except.ok v ∧ 0 ≤ v ∧ v ≤ 101 :=
  ffmc_in_range 0 20 100 0 0 (by norm_num) (by norm_num) (by norm_num)
    (by norm_num) (by norm_num) (by norm_num)

/-- The rain-adjusted moisture content `mo` of
`hourly_fine_fuel_moisture_code` (hffmc.py lines 64-79): Eq. 1, Eqs. 3a & 3b
(Van Wagner & Pickett 1985), the 250 cap, and the `prec > 0.0` selection. -/
def hffmcMoRain (prec fo : ℝ) : ℝ :=
  -- Eq. 1 (with a more precise multiplier than the daily)
  let mo := FFMC_COEFFICIENT * (101 - fo) / (59.5 + fo)
  let rf := prec
  -- Eqs. 3a & 3b (Van Wagner & Pickett 1985)
  let mr :=
    if mo ≤ 150 then
      mo + 42.5 * rf * Real.exp (-100 / (251 - mo)) * (1 - Real.exp (-6.93 / rf))
    else
      mo + 42.5 * rf * Real.exp (-100 / (251 - mo)) * (1 - Real.exp (-6.93 / rf))
        + 0.0015 * (mo - 150) ^ (2 : ℕ) * rf ^ (0.5 : ℝ)
  -- cap moisture content at 250
  let mr := min mr 250
  if prec > 0.0 then mr else mo

/-- Eq. 2a of `hourly_fine_fuel_moisture_code` (hffmc.py lines 81-85):
equilibrium moisture content from drying. -/
def hffmcEd (temp rh : ℝ) : ℝ :=
  0.942 * rh ^ (0.679 : ℝ) + 11 * Real.exp ((rh - 100) / 10)
    + 0.18 * (21.1 - temp) * (1 - Real.exp (-0.115 * rh))

/-- Eq. 3a of `hourly_fine_fuel_moisture_code` (hffmc.py line 87): log
drying rate at 21.1 C. -/
def hffmcKo (rh ws : ℝ) : ℝ :=
  0.424 * (1 - (rh / 100) ^ (1.7 : ℝ))
    + 0.0694 * ws ^ (0.5 : ℝ) * (1 - (rh / 100) ^ (8 : ℕ))

/-- Eq. 3b of `hourly_fine_fuel_moisture_code` (hffmc.py line 89). -/
def hffmcKd (temp rh ws : ℝ) : ℝ :=
  hffmcKo rh ws * 0.0579 * Real.exp (0.0365 * temp)

/-- Eq. 2b of `hourly_fine_fuel_moisture_code` (hffmc.py lines 93-97):
equilibrium moisture content from wetting. -/
def hffmcEw (temp rh : ℝ) : ℝ :=
  0.618 * rh ^ (0.753 : ℝ) + 10 * Real.exp ((rh - 100) / 10)
    + 0.18 * (21.1 - temp) * (1 - Real.exp (-0.115 * rh))

/-- Eq. 7a of `hourly_fine_fuel_moisture_code` (hffmc.py lines 99-101): log
wetting rate at 21.1 C. -/
def hffmcK1 (rh ws : ℝ) : ℝ :=
  0.424 * (1 - ((100 - rh) / 100) ^ (1.7 : ℝ))
    + 0.0694 * ws ^ (0.5 : ℝ) * (1 - ((100 - rh) / 100) ^ (8 : ℕ))

/-- Eq. 4b of `hourly_fine_fuel_moisture_code` (hffmc.py line 103). -/
def hffmcKw (temp rh ws : ℝ) : ℝ :=
  hffmcK1 rh ws * 0.0579 * Real.exp (0.0365 * temp)

/-- The regime-selected moisture `m` of `hourly_fine_fuel_moisture_code`
(hffmc.py lines 64-112): rain adjustment, drying estimate `md` (Eq. 8),
wetting estimate `mw`, and the three-way constraint selection of lines
107-112. -/
def hffmcMoisture (temp rh ws prec fo t0 : ℝ) : ℝ :=
  let mo := hffmcMoRain prec fo
  let ed := hffmcEd temp rh
  -- Eq. 8 (Van Wagner & Pickett 1985), line 91
  let md := ed + (mo - ed) * (10 : ℝ) ^ (-hffmcKd temp rh ws * t0)
  let ew := hffmcEw temp rh
  -- Eq. 8 (Van Wagner & Pickett 1985), line 105
  let mw := ew - (ew - mo) * (10 : ℝ) ^ (-hffmcKw temp rh ws * t0)
  -- constraints, lines 107-112
  if mo > ed then md else if ed ≥ mo ∧ mo ≥ ew then mo else mw

/-- `hourly_fine_fuel_moisture_code` (hffmc.py lines 5-116).  `fo` is never
validated, so every division whose denominator depends on the inputs is
modelled fallibly, in the source's evaluation order: line 65 divides by
`59.5 + fo`; lines 69/73 divide by `251 - mo` and then by `rf = prec`
(unconditionally, before the `prec > 0.0` selection of line 79, so `prec = 0`
raises); line 114 divides by `FFMC_COEFFICIENT + m`. -/
def hourly_fine_fuel_moisture_code (temp rh ws prec : ℝ) (fo : ℝ := 85)
    (t0 : ℝ := 1) : Except Err ℝ :=
  if rh < 0 ∨ rh > 100 then Except.error Err.domain
  else if prec < 0 then Except.error Err.domain
  else if ws < 0 then Except.error Err.domain
  -- hffmc.py line 65: `mo = FFMC_COEFFICIENT * (101 - fo) / (59.5 + fo)`
  else if 59.5 + fo = 0 then Except.error Err.zeroDivision
  -- hffmc.py lines 69/73: `exp(-100 / (251 - mo))`, evaluated first
  else if 251 - FFMC_COEFFICIENT * (101 - fo) / (59.5 + fo) = 0 then
    Except.error Err.zeroDivision
  -- hffmc.py lines 69/73: `exp(-6.93 / rf)` with `rf = prec`
  else if prec = 0 then Except.error Err.zeroDivision
  -- hffmc.py line 114: `fo = 59.5 * (250 - m) / (FFMC_COEFFICIENT + m)`
  else if FFMC_COEFFICIENT + hffmcMoisture temp rh ws prec fo t0 = 0 then
    Except.error Err.zeroDivision
  -- hffmc.py lines 114-115: Eq. 6 and the `max(fo, 0)` floor
  else Except.ok (max (59.5 * (250 - hffmcMoisture temp rh ws prec fo t0) /
    (FFMC_COEFFICIENT + hffmcMoisture temp rh ws prec fo t0)) 0)

/-- Claim C1: the hourly FFMC is claimed never to raise on in-domain inputs,
in particular not at `prec = 0`; the code, however, divides `-6.93` by
`rf = prec` before the rain guard and raises `ZeroDivisionError` at the
in-domain input `temp = 20`, `rh = 50`, `ws = 10`, `prec = 0`, `fo = 85`,
`t0 = 1`. -/
theorem hffmc_raises_on_zero_prec :
    hourly_fine_fuel_moisture_code 20 50 10 0 85 1 =
      Except.error Err.zeroDivision := by
  rw [hourly_fine_fuel_moisture_code, if_neg (by norm_num),
    if_neg (by norm_num), if_neg (by norm_num), if_neg (by norm_num),
    if_neg (by norm_num [FFMC_COEFFICIENT]), if_pos rfl]

/-- `bui` numeric body (fwi.py lines 371-380), after validation. -/
def buiCompute (dmc dc : ℝ) : ℝ :=
  -- Eq. 27a
  let bui1 := if dmc = 0 ∧ dc = 0 then 0 else 0.8 * dc * dmc / (dmc + 0.4 * dc)
  -- Eq. 27b - next 3 lines
  let p := if dmc = 0 then 0 else (dmc - bui1) / dmc
  let cc := 0.92 + (0.0114 * dmc) ^ (1.7 : ℝ)
  let bui0 := dmc - cc * p
  -- constraints
  let bui0 := if bui0 < 0 then 0 else bui0
  if bui1 < dmc then bui0 else bui1

/-- `bui` (fwi.py lines 332-380): validation then the numeric body.  The
division in Eq. 27a cannot divide by zero for validated inputs: both codes
are nonnegative, so the denominator vanishes only when both are zero, which
the guard intercepts. -/
def bui (dmc dc : ℝ) : Except Err ℝ :=
  if dmc < 0 then Except.error Err.domain
  else if dc < 0 then Except.error Err.domain
  else Except.ok (buiCompute dmc dc)

/-- Claim C7: for all `dmc ≥ 0`, `dc ≥ 0`, `bui` succeeds with a nonnegative
value; `bui 0 0 = 0`; and whenever the combined index
`bui1 = 0.8*dc*dmc/(dmc + 0.4*dc)` falls below `dmc`, the returned value is
the corrected `bui0 = max 0 (dmc - cc * p)` instead of `bui1`. -/
theorem bui_props (dmc dc : ℝ) (hd : 0 ≤ dmc) (hc : 0 ≤ dc) :
    ∃ v, bui dmc dc = Except.ok v ∧ 0 ≤ v ∧
      ((dmc = 0 ∧ dc = 0) → v = 0) ∧
      (0.8 * dc * dmc / (dmc + 0.4 * dc) < dmc →
        v = max 0 (dmc - (0.92 + (0.0114 * dmc) ^ (1.7 : ℝ)) *
          (if dmc = 0 then 0
           else (dmc - 0.8 * dc * dmc / (dmc + 0.4 * dc)) / dmc))) := by
  have hguard : (if dmc = 0 ∧ dc = 0 then (0 : ℝ)
      else 0.8 * dc * dmc / (dmc + 0.4 * dc)) =
      0.8 * dc * dmc / (dmc + 0.4 * dc) := by
    split_ifs with h
    · rw [h.1, h.2]; norm_num
    · rfl
  have hb1 : 0 ≤ 0.8 * dc * dmc / (dmc + 0.4 * dc) :=
    div_nonneg (by positivity) (by linarith)
  have hmax : ∀ x : ℝ, (if x < 0 then (0 : ℝ) else x) = max 0 x := by
    intro x
    rcases lt_or_le x 0 with h | h
    · rw [if_pos h, max_eq_left h.le]
    · rw [if_neg (not_lt.mpr h), max_eq_right h]
  refine ⟨buiCompute dmc dc, ?_, ?_, ?_, ?_⟩
  · rw [bui, if_neg (not_lt.mpr hd), if_neg (not_lt.mpr hc)]
  · rw [buiCompute]
    simp only [hguard]
    split_ifs <;> linarith [hb1]
  · rintro ⟨h0, h1⟩
    rw [buiCompute, h0, h1]
    norm_num
  · intro hlt
    rw [buiCompute]
    simp only [hguard, if_pos hlt, hmax]

/-- Witness for C7 at `dmc = dc = 0`: `bui 0 0` succeeds with a nonnegative
value that is `0`, discharging the hypotheses of `bui_props` there. -/
theorem bui_props_witness :
    ∃ v, bui 0 0 = Except.ok v ∧ 0 ≤ v ∧
      (((0 : ℝ) = 0 ∧ (0 : ℝ) = 0) → v = 0) ∧
      (0.8 * 0 * 0 / (0 + 0.4 * 0) < (0 : ℝ) →
        v = max 0 (0 - (0.92 + (0.0114 * 0) ^ (1.7 : ℝ)) *
          (if (0 : ℝ) = 0 then 0
           else (0 - 0.8 * 0 * 0 / (0 + 0.4 * 0)) / 0))) :=
  bui_props 0 0 le_rfl le_rfl

/-- `eq27a` (fwi_numpy.py lines 606-612): the unguarded Eq. 27a quotient used
by `bui_arr`. -/
def eq27a (dc_loc dmc_loc : ℝ) : ℝ :=
  let num := 0.8 * dc_loc * dmc_loc
  let den := dmc_loc + 0.4 * dc_loc
  num / den

/-- Element-wise numeric body of `bui_arr` (fwi_numpy.py lines 566-604): each
`np.where` is the element-wise selection of one of its two (always computed)
branch values. -/
def buiArrElt (dmc_loc dc_loc : ℝ) : ℝ :=
  -- Eq. 27a
  let bui1 :=
    if dmc_loc = 0 then (if dc_loc = 0 then 0 else eq27a dc_loc dmc_loc)
    else eq27a dc_loc dmc_loc
  -- Eq. 27b - next 3 lines
  let p := if dmc_loc = 0 then 0 else (dmc_loc - bui1) / dmc_loc
  let cc := 0.92 + (0.0114 * dmc_loc) ^ (1.7 : ℝ)
  let bui0 := dmc_loc - cc * p
  -- constraints
  let bui0 := if bui0 < 0 then 0 else bui0
  if bui1 < dmc_loc then bui0 else bui1

/-- `bui_arr` (fwi_numpy.py lines 527-604) on lists: the two `np.any`
whole-array validations, then the element-wise body.  (The Python `raise`
lines reference the undefined names `dmc`/`dc` inside the f-string, so the
surfaced exception is a `NameError` rather than a `ValueError`; either way
the whole call is rejected, modelled as `Err.domain`.) -/
def bui_arr (dmc_loc dc_loc : List ℝ) : Except Err (List ℝ) :=
  if dmc_loc.any (fun x => if x < 0 then true else false) then
    Except.error Err.domain
  else if dc_loc.any (fun x => if x < 0 then true else false) then
    Except.error Err.domain
  else Except.ok (List.zipWith buiArrElt dmc_loc dc_loc)

/-- `np.divide(numerator, denominator, where=denominator != 0,
out=np.zeros_like(numerator))` of raster `buildup_index`
(raster/buildup_index_raster.py lines 43-49), element-wise: the division is
performed only where the denominator is nonzero, other elements keep the
fallback 0. -/
def rasterBui1 (dmc dc : ℝ) : ℝ :=
  let numerator := 0.8 * dc * dmc
  let denominator := dmc + 0.4 * dc
  if denominator ≠ 0 then numerator / denominator else 0

/-- Element-wise numeric body of the raster `buildup_index`
(raster/buildup_index_raster.py lines 43-60).  Note: the function performs no
input validation at all. -/
def rasterBuiElt (dmc dc : ℝ) : ℝ :=
  -- Eq. 27a with the guarded division
  let bui1 := rasterBui1 dmc dc
  -- Eq. 27b - next 3 lines
  let p := if dmc = 0 then 0 else (dmc - bui1) / dmc
  let cc := 0.92 + (0.0114 * dmc) ^ (1.7 : ℝ)
  let bui0 := dmc - cc * p
  -- constraints
  let bui0 := if bui0 < 0 then 0 else bui0
  if bui1 < dmc then bui0 else bui1

/-- Raster `buildup_index` (raster/buildup_index_raster.py lines 6-60) on
lists: element-wise evaluation with no validation. -/
def buildup_index (dmc dc : List ℝ) : List ℝ :=
  List.zipWith rasterBuiElt dmc dc

/-- Counterexample for claim C4: the raster `buildup_index` does not reject a
negative element.  On the singleton inputs `dmc = [1]`, `dc = [-1]` it
computes the value `[0]`, while `bui_arr` rejects the same call. -/
theorem raster_bui_accepts_negative :
    buildup_index [1] [(-1 : ℝ)] = [0] ∧
      bui_arr [1] [(-1 : ℝ)] = Except.error Err.domain := by
  constructor
  · have hb1 : rasterBui1 1 (-1) = -4 / 3 := by
      rw [rasterBui1]
      norm_num
    have hcc : (0 : ℝ) ≤ ((57 / 5000 : ℝ)) ^ ((17 / 10 : ℝ)) :=
      Real.rpow_nonneg (by norm_num) _
    show [rasterBuiElt 1 (-1)] = [0]
    rw [rasterBuiElt, hb1]
    norm_num
    intro h
    nlinarith [hcc]
  · rw [bui_arr, if_neg (by norm_num), if_pos (by norm_num)]

/-- Claim C4 (amended): `bui_arr` rejects the whole call before computing
when any element of DMC or DC is negative; the raster `buildup_index`
performs no such validation and computes a result on negative inputs. -/
theorem bui_arr_rejects_negative (dmcs dcs : List ℝ)
    (h : (∃ x ∈ dmcs, x < 0) ∨ (∃ x ∈ dcs, x < 0)) :
    bui_arr dmcs dcs = Except.error Err.domain := by
  rw [bui_arr]
  rcases h with ⟨x, hx, hxlt⟩ | ⟨x, hx, hxlt⟩
  · rw [if_pos]
    refine List.any_eq_true.mpr ⟨x, hx, ?_⟩
    rw [if_pos hxlt]
  · by_cases hd : dmcs.any (fun x => if x < 0 then true else false)
    · rw [if_pos hd]
    · rw [if_neg hd, if_pos]
      refine List.any_eq_true.mpr ⟨x, hx, ?_⟩
      rw [if_pos hxlt]

/-- Witness for the amended C4 at `dmcs = [-1]`, `dcs = [5]`: the negative
DMC element makes `bui_arr` reject the whole call. -/
theorem bui_arr_rejects_negative_witness :
    bui_arr [(-1 : ℝ)] [5] = Except.error Err.domain :=
  bui_arr_rejects_negative [(-1 : ℝ)] [5]
    (Or.inl ⟨-1, by norm_num, by norm_num⟩)

/-- Claim C8: in the raster `buildup_index`, wherever the denominator
`dmc + 0.4 * dc` is zero the division is skipped and the combined index
takes the fallback value 0 — for any zero denominator, not only the
`dmc = dc = 0` case — and for nonnegative inputs the element's final output
is then 0. -/
theorem raster_bui_zero_denominator (dmc dc : ℝ) :
    (dmc + 0.4 * dc = 0 → rasterBui1 dmc dc = 0) ∧
      (0 ≤ dmc → 0 ≤ dc → dmc + 0.4 * dc = 0 → rasterBuiElt dmc dc = 0) := by
  constructor
  · intro h0
    rw [rasterBui1]
    simp only [h0]
    norm_num
  · intro hd hc h0
    have hdmc : dmc = 0 := by linarith
    have hdc : dc = 0 := by linarith
    have hb1 : rasterBui1 dmc dc = 0 := by
      rw [rasterBui1]
      simp only [h0]
      norm_num
    rw [rasterBuiElt, hb1, hdmc]
    norm_num

/-- Witness for C8 at `dmc = dc = 0` (zero denominator): the guarded quotient
and the element output are both 0. -/
theorem raster_bui_zero_denominator_witness :
    rasterBui1 0 0 = 0 ∧ rasterBuiElt 0 0 = 0 :=
  ⟨(raster_bui_zero_denominator 0 0).1 (by norm_num),
    (raster_bui_zero_denominator 0 0).2 le_rfl le_rfl (by norm_num)⟩

/-- Counterexample for claim C5: `hourly_fine_fuel_moisture_code` does not
reject a previous FFMC outside `[0,101]`.  With in-domain weather
(`temp = 20`, `rh = 50`, `ws = 0`, `prec = 1`, `t0 = 1`) and `fo = 200` the
call succeeds instead of raising. -/
theorem exp_nonpos_le_one (x : ℝ) (hx : x ≤ 0) : Real.exp x ≤ 1 := by
  rw [show (1 : ℝ) = Real.exp 0 from Real.exp_zero.symm]
  exact Real.exp_le_exp.mpr hx

/-- A combination `e + (m - e) * d` with `e ≥ 0`, `m ≥ lo`, `lo ≤ 0` and
`d ∈ [0,1]` stays at or above `lo` — the shape of hffmc's drying and wetting
relaxations toward an equilibrium. -/
theorem convexComb_lb (lo e m d : ℝ) (hlo : lo ≤ 0) (he : 0 ≤ e)
    (hm : lo ≤ m) (hd0 : 0 ≤ d) (hd1 : d ≤ 1) : lo ≤ e + (m - e) * d := by
  nlinarith [mul_nonneg he (by linarith : (0 : ℝ) ≤ 1 - d),
    mul_nonneg (by linarith : (0 : ℝ) ≤ m - lo) hd0,
    mul_nonneg (by linarith : (0 : ℝ) ≤ -lo) (by linarith : (0 : ℝ) ≤ 1 - d)]

/-- The rain adjustment keeps the moisture above any nonpositive lower bound
on the initial `mo`: the rain terms of Eqs. 3a/3b are nonnegative and the
250 cap only acts from above. -/
theorem hffmcMoRain_lb (prec fo lo : ℝ) (hp : 0 ≤ prec) (hlo : lo ≤ 0)
    (hmo : lo ≤ FFMC_COEFFICIENT * (101 - fo) / (59.5 + fo)) :
    lo ≤ hffmcMoRain prec fo := by
  have hE2 : Real.exp (-6.93 / prec) ≤ 1 :=
    exp_nonpos_le_one _ (div_nonpos_of_nonpos_of_nonneg (by norm_num) hp)
  have hT : 0 ≤ 42.5 * prec *
      Real.exp (-100 / (251 - FFMC_COEFFICIENT * (101 - fo) / (59.5 + fo))) *
      (1 - Real.exp (-6.93 / prec)) :=
    mul_nonneg (mul_nonneg (mul_nonneg (by norm_num) hp) (Real.exp_pos _).le)
      (by linarith)
  have hS : 0 ≤ 0.0015 *
      (FFMC_COEFFICIENT * (101 - fo) / (59.5 + fo) - 150) ^ (2 : ℕ) *
      prec ^ (0.5 : ℝ) :=
    mul_nonneg (mul_nonneg (by norm_num) (sq_nonneg _)) (Real.rpow_nonneg hp _)
  simp only [hffmcMoRain]
  split_ifs <;> first
    | linarith
    | exact le_min (by linarith) (by linarith)

theorem hffmcEd_nonneg (temp rh : ℝ) (h0 : 0 ≤ rh) (ht : temp ≤ 21.1) :
    0 ≤ hffmcEd temp rh := by
  rw [hffmcEd]
  have a : 0 ≤ 0.942 * rh ^ (0.679 : ℝ) :=
    mul_nonneg (by norm_num) (Real.rpow_nonneg h0 _)
  have b : (0 : ℝ) < Real.exp ((rh - 100) / 10) := Real.exp_pos _
  have c : Real.exp (-0.115 * rh) ≤ 1 := exp_nonpos_le_one _ (by linarith)
  have d : 0 ≤ 0.18 * (21.1 - temp) * (1 - Real.exp (-0.115 * rh)) :=
    mul_nonneg (mul_nonneg (by norm_num) (by linarith)) (by linarith)
  linarith

theorem hffmcEw_nonneg (temp rh : ℝ) (h0 : 0 ≤ rh) (ht : temp ≤ 21.1) :
    0 ≤ hffmcEw temp rh := by
  rw [hffmcEw]
  have a : 0 ≤ 0.618 * rh ^ (0.753 : ℝ) :=
    mul_nonneg (by norm_num) (Real.rpow_nonneg h0 _)
  have b : (0 : ℝ) < Real.exp ((rh - 100) / 10) := Real.exp_pos _
  have c : Real.exp (-0.115 * rh) ≤ 1 := exp_nonpos_le_one _ (by linarith)
  have d : 0 ≤ 0.18 * (21.1 - temp) * (1 - Real.exp (-0.115 * rh)) :=
    mul_nonneg (mul_nonneg (by norm_num) (by linarith)) (by linarith)
  linarith

theorem hffmcKo_nonneg (rh ws : ℝ) (h0 : 0 ≤ rh) (h1 : rh ≤ 100)
    (hws : 0 ≤ ws) : 0 ≤ hffmcKo rh ws := by
  rw [hffmcKo]
  have p1 : (rh / 100) ^ (1.7 : ℝ) ≤ 1 :=
    Real.rpow_le_one (by linarith) (by linarith) (by norm_num)
  have p2 : (rh / 100) ^ (8 : ℕ) ≤ 1 :=
    pow_le_one (by linarith) (by linarith)
  have t2 : 0 ≤ 0.0694 * ws ^ (0.5 : ℝ) * (1 - (rh / 100) ^ (8 : ℕ)) :=
    mul_nonneg (mul_nonneg (by norm_num) (Real.rpow_nonneg hws _)) (by linarith)
  linarith

theorem hffmcK1_nonneg (rh ws : ℝ) (h0 : 0 ≤ rh) (h1 : rh ≤ 100)
    (hws : 0 ≤ ws) : 0 ≤ hffmcK1 rh ws := by
  rw [hffmcK1]
  have p1 : ((100 - rh) / 100) ^ (1.7 : ℝ) ≤ 1 :=
    Real.rpow_le_one (by linarith) (by linarith) (by norm_num)
  have p2 : ((100 - rh) / 100) ^ (8 : ℕ) ≤ 1 :=
    pow_le_one (by linarith) (by linarith)
  have t2 : 0 ≤ 0.0694 * ws ^ (0.5 : ℝ) * (1 - ((100 - rh) / 100) ^ (8 : ℕ)) :=
    mul_nonneg (mul_nonneg (by norm_num) (Real.rpow_nonneg hws _)) (by linarith)
  linarith

theorem hffmcKd_nonneg (temp rh ws : ℝ) (h0 : 0 ≤ rh) (h1 : rh ≤ 100)
    (hws : 0 ≤ ws) : 0 ≤ hffmcKd temp rh ws := by
  rw [hffmcKd]
  exact mul_nonneg (mul_nonneg (hffmcKo_nonneg rh ws h0 h1 hws) (by norm_num))
    (Real.exp_pos _).le

theorem hffmcKw_nonneg (temp rh ws : ℝ) (h0 : 0 ≤ rh) (h1 : rh ≤ 100)
    (hws : 0 ≤ ws) : 0 ≤ hffmcKw temp rh ws := by
  rw [hffmcKw]
  exact mul_nonneg (mul_nonneg (hffmcK1_nonneg rh ws h0 h1 hws) (by norm_num))
    (Real.exp_pos _).le

/-- Under in-domain weather a nonpositive lower bound on the initial
moisture `mo` propagates to the regime-selected moisture `m`: each of the
three regime candidates relaxes toward a nonnegative equilibrium. -/
theorem hffmcMoisture_lb (temp rh ws prec fo t0 lo : ℝ)
    (hr0 : 0 ≤ rh) (hr1 : rh ≤ 100) (hws : 0 ≤ ws) (hp : 0 ≤ prec)
    (ht : temp ≤ 21.1) (ht0 : 0 ≤ t0) (hlo : lo ≤ 0)
    (hmo : lo ≤ FFMC_COEFFICIENT * (101 - fo) / (59.5 + fo)) :
    lo ≤ hffmcMoisture temp rh ws prec fo t0 := by
  have hMo := hffmcMoRain_lb prec fo lo hp hlo hmo
  have hed := hffmcEd_nonneg temp rh hr0 ht
  have hew := hffmcEw_nonneg temp rh hr0 ht
  have hd0 : 0 ≤ (10 : ℝ) ^ (-hffmcKd temp rh ws * t0) :=
    Real.rpow_nonneg (by norm_num) _
  have hd1 : (10 : ℝ) ^ (-hffmcKd temp rh ws * t0) ≤ 1 := by
    apply Real.rpow_le_one_of_one_le_of_nonpos (by norm_num)
    nlinarith [hffmcKd_nonneg temp rh ws hr0 hr1 hws]
  have hw0 : 0 ≤ (10 : ℝ) ^ (-hffmcKw temp rh ws * t0) :=
    Real.rpow_nonneg (by norm_num) _
  have hw1 : (10 : ℝ) ^ (-hffmcKw temp rh ws * t0) ≤ 1 := by
    apply Real.rpow_le_one_of_one_le_of_nonpos (by norm_num)
    nlinarith [hffmcKw_nonneg temp rh ws hr0 hr1 hws]
  have hmd := convexComb_lb lo (hffmcEd temp rh) (hffmcMoRain prec fo)
    ((10 : ℝ) ^ (-hffmcKd temp rh ws * t0)) hlo hed hMo hd0 hd1
  have hmw := convexComb_lb lo (hffmcEw temp rh) (hffmcMoRain prec fo)
    ((10 : ℝ) ^ (-hffmcKw temp rh ws * t0)) hlo hew hMo hw0 hw1
  simp only [hffmcMoisture]
  split_ifs <;> linarith [hmd, hMo, hmw]

/-- For `fo` above the valid range the initial moisture `mo` lies in
`(-FFMC_COEFFICIENT, 0]`, so every checked denominator is nonzero and the
hourly FFMC returns a value for in-domain weather with positive rain, a
temperature at most 21.1 C and a nonnegative time step. -/
theorem hffmc_ok_above_range (temp rh ws prec fo t0 : ℝ)
    (hr0 : 0 ≤ rh) (hr1 : rh ≤ 100) (hws : 0 ≤ ws) (hp : 0 < prec)
    (ht : temp ≤ 21.1) (ht0 : 0 ≤ t0) (hfo : 101 < fo) :
    ∃ v, hourly_fine_fuel_moisture_code temp rh ws prec fo t0 =
      Except.ok v := by
  have hden : (0 : ℝ) < 59.5 + fo := by linarith
  have hFF : (0 : ℝ) < FFMC_COEFFICIENT := by rw [FFMC_COEFFICIENT]; norm_num
  have hmo_neg : FFMC_COEFFICIENT * (101 - fo) / (59.5 + fo) ≤ 0 :=
    le_of_lt (div_neg_of_neg_of_pos
      (mul_neg_of_pos_of_neg hFF (by linarith)) hden)
  have hmoF : 0 < FFMC_COEFFICIENT +
      FFMC_COEFFICIENT * (101 - fo) / (59.5 + fo) := by
    have heq : FFMC_COEFFICIENT + FFMC_COEFFICIENT * (101 - fo) / (59.5 + fo)
        = FFMC_COEFFICIENT * (59.5 + fo + (101 - fo)) / (59.5 + fo) := by
      field_simp
      ring
    rw [heq]
    exact div_pos (mul_pos hFF (by norm_num)) hden
  have hm := hffmcMoisture_lb temp rh ws prec fo t0
    (FFMC_COEFFICIENT * (101 - fo) / (59.5 + fo)) hr0 hr1 hws hp.le ht ht0
    hmo_neg le_rfl
  refine ⟨max (59.5 * (250 - hffmcMoisture temp rh ws prec fo t0) /
    (FFMC_COEFFICIENT + hffmcMoisture temp rh ws prec fo t0)) 0, ?_⟩
  rw [hourly_fine_fuel_moisture_code,
    if_neg (by push_neg; exact ⟨hr0, hr1⟩),
    if_neg (not_lt.mpr hp.le), if_neg (not_lt.mpr hws),
    if_neg (by intro h0; linarith),
    if_neg (by intro h0; linarith [hmo_neg]),
    if_neg (ne_of_gt hp),
    if_neg (by intro h0; linarith [hm, hmoF])]

/-- Counterexample for claim C5: `hourly_fine_fuel_moisture_code` does not
reject a previous FFMC outside `[0,101]`.  With in-domain weather
(`temp = 20`, `rh = 50`, `ws = 0`, `prec = 1`, `t0 = 1`) and `fo = 200` the
call succeeds instead of raising. -/
theorem hffmc_accepts_out_of_range_fo :
    ∃ v, hourly_fine_fuel_moisture_code 20 50 0 1 200 1 = Except.ok v :=
  hffmc_ok_above_range 20 50 0 1 200 1 (by norm_num) (by norm_num)
    (by norm_num) (by norm_num) (by norm_num) (by norm_num) (by norm_num)

/-- Claim C5 (amended): daily scalar `ffmc` rejects a previous FFMC outside
`[0,101]` before any computation, but `hourly_fine_fuel_moisture_code`
performs no validation of `fo` at all and never rejects it: with in-domain
weather (`rh ∈ [0,100]`, `ws ≥ 0`, `prec > 0`, `temp ≤ 21.1`, `t0 ≥ 0`) it
returns a value for every `fo` above the valid range, and below the range it
can instead hit the unguarded division of hffmc.py line 65 (`fo = -59.5`
raises `ZeroDivisionError`) — in no case the domain rejection the claim
requires. -/
theorem ffmc_rejects_fo_hffmc_accepts (fo temp rh ws prec t0 : ℝ)
    (hfo : fo < 0 ∨ 101 < fo) (hr0 : 0 ≤ rh) (hr1 : rh ≤ 100)
    (hws : 0 ≤ ws) (hp : 0 < prec) (ht : temp ≤ 21.1) (ht0 : 0 ≤ t0) :
    ffmc fo temp rh ws prec = Except.error Err.domain ∧
      (101 < fo → ∃ v, hourly_fine_fuel_moisture_code temp rh ws prec fo t0 =
        Except.ok v) ∧
      hourly_fine_fuel_moisture_code temp rh ws prec (-59.5) t0 =
        Except.error Err.zeroDivision := by
  refine ⟨?_, ?_, ?_⟩
  · rw [ffmc, if_pos]
    rcases hfo with h | h
    · exact Or.inl h
    · exact Or.inr h
  · intro hfo2
    exact hffmc_ok_above_range temp rh ws prec fo t0 hr0 hr1 hws hp ht ht0 hfo2
  · rw [hourly_fine_fuel_moisture_code, if_neg (by push_neg; exact ⟨hr0, hr1⟩),
      if_neg (not_lt.mpr hp.le), if_neg (not_lt.mpr hws),
      if_pos (by norm_num)]

/-- Witness for the amended C5 at `fo = 200`, `temp = 20`, `rh = 50`,
`ws = 0`, `prec = 1`, `t0 = 1`. -/
theorem ffmc_rejects_fo_hffmc_accepts_witness :
    ffmc 200 20 50 0 1 = Except.error Err.domain ∧
      ((101 : ℝ) < 200 →
        ∃ v, hourly_fine_fuel_moisture_code 20 50 0 1 200 1 = Except.ok v) ∧
      hourly_fine_fuel_moisture_code 20 50 0 1 (-59.5) 1 =
        Except.error Err.zeroDivision :=
  ffmc_rejects_fo_hffmc_accepts 200 20 50 0 1 1 (Or.inr (by norm_num))
    (by norm_num) (by norm_num) (by norm_num) (by norm_num) (by norm_num)
    (by norm_num)

/-- DMC day-length table, 46N Canadian standard (fwi.py line 155,
fwi_numpy.py line 237). -/
def ell01 : List ℝ := [6.5, 7.5, 9, 12.8, 13.9, 13.9, 12.4, 10.9, 9.4, 8, 7, 6]

/-- DMC day-length table, 20N for 30 > latitude >= 10 (fwi.py line 157). -/
def ell02 : List ℝ := [7.9, 8.4, 8.9, 9.5, 9.9, 10.2, 10.1, 9.7, 9.1, 8.6, 8.1, 7.8]

/-- DMC day-length table, 20S for -10 > latitude >= -30 (fwi.py line 159). -/
def ell03 : List ℝ := [10.1, 9.6, 9.1, 8.5, 8.1, 7.8, 7.9, 8.3, 8.9, 9.4, 9.9, 10.2]

/-- DMC day-length table, 40S for -30 > latitude (fwi.py line 161). -/
def ell04 : List ℝ := [11.5, 10.5, 9.2, 7.9, 6.8, 6.2, 6.5, 7.4, 8.7, 10, 11.2, 11.8]

/-- The log drying rate `rk` of scalar `dmc` (fwi.py lines 166-172): the base
Eq. 16 value from `ell01[mon - 1]`, then the four sequential latitude-band
overrides when `lat_adjust` is set.  `mon` is the validated 1-based month, so
every `mon - 1` subscript is in bounds and is modelled by `List.getD`. -/
def dmcRk (temp rh lat : ℝ) (mon : ℕ) (lat_adjust : Bool) : ℝ :=
  -- Eq. 16 - the log drying rate
  let rk := 1.894 * (temp + 1.1) * (100 - rh) * ell01.getD (mon - 1) 0 * 1e-04
  if lat_adjust then
    let rk := if 30 ≥ lat ∧ lat > 10 then
        1.894 * (temp + 1.1) * (100 - rh) * ell02.getD (mon - 1) 0 * 1e-04
      else rk
    let rk := if -10 ≥ lat ∧ lat > -30 then
        1.894 * (temp + 1.1) * (100 - rh) * ell03.getD (mon - 1) 0 * 1e-04
      else rk
    let rk := if -30 ≥ lat ∧ lat ≥ -90 then
        1.894 * (temp + 1.1) * (100 - rh) * ell04.getD (mon - 1) 0 * 1e-04
      else rk
    let rk := if 10 ≥ lat ∧ lat > -10 then
        1.894 * (temp + 1.1) * (100 - rh) * 9 * 1e-04
      else rk
    rk
  else rk

/-- Numeric body of scalar `dmc` (fwi.py lines 163-194), after validation. -/
def dmcCompute (dmc_yda temp rh prec lat : ℝ) (mon : ℕ)
    (lat_adjust : Bool) : ℝ :=
  -- constrain low end of temperature
  let temp := if temp < 1.1 then -1.1 else temp
  let rk := dmcRk temp rh lat mon lat_adjust
  -- constrain P
  let pr :=
    if prec ≤ 1.5 then dmc_yda
    else
      let ra := prec
      -- Eq. 11 - net rain amount
      let rw := 0.92 * ra - 1.27
      -- alteration to Eq. 12
      let wmi := 20 + 280 / Real.exp (0.023 * dmc_yda)
      -- Eqs. 13a, 13b, 13c
      let b :=
        if dmc_yda ≤ 33 then 100 / (0.5 + 0.3 * dmc_yda)
        else if dmc_yda ≤ 65 then 14 - 1.3 * Real.log dmc_yda
        else 6.2 * Real.log dmc_yda - 17.2
      -- Eq. 14 - moisture content after rain
      let wmr := wmi + 1000 * rw / (48.77 + b * rw)
      -- alteration to Eq. 15
      43.43 * (5.6348 - Real.log (wmr - 20))
  let pr := if pr < 0 then 0 else pr
  -- calculate final P (DMC)
  let dmc1 := pr + rk
  if dmc1 < 0 then 0 else dmc1

/-- Scalar `dmc` (fwi.py lines 100-194): validation (1-based month) then the
numeric body. -/
def dmc (dmc_yda temp rh prec lat : ℝ) (mon : ℕ)
    (lat_adjust : Bool := true) : Except Err ℝ :=
  if dmc_yda < 0 then Except.error Err.domain
  else if rh < 0 ∨ rh > 100 then Except.error Err.domain
  else if prec < 0 then Except.error Err.domain
  else if mon < 1 ∨ mon > 12 then Except.error Err.domain
  else Except.ok (dmcCompute dmc_yda temp rh prec lat mon lat_adjust)

/-- `calc_rain` (fwi_numpy.py lines 320-343): the rain branch of `dmc_arr`,
element-wise. -/
def calc_rain (prec dmc_yda : ℝ) : ℝ :=
  let ra := prec
  -- Eq. 11 - net rain amount
  let rw := 0.92 * ra - 1.27
  -- alteration to Eq. 12
  let wmi := 20 + 280 / Real.exp (0.023 * dmc_yda)
  -- Eqs. 13a, 13b, 13c
  let term1 := 100 / (0.5 + 0.3 * dmc_yda)
  let term2 := 14 - 1.3 * Real.log dmc_yda
  let term3 := 6.2 * Real.log dmc_yda - 17.2
  let b := if dmc_yda ≤ 65 then (if dmc_yda ≤ 33 then term1 else term2) else term3
  -- Eq. 14 - moisture content after rain
  let wmr := wmi + 1000 * rw / (48.77 + b * rw)
  -- decomposed Eq. 15
  let wmr := wmr - 20
  43.43 * (5.6348 - Real.log wmr)

/-- The log drying rate of `dmc_arr` (fwi_numpy.py lines 253-277),
element-wise, with `mon` the validated 0-based month subscripting the tables
directly. -/
def dmcArrRk (temp rh lat : ℝ) (mon : ℕ) (lat_adjust : Bool) : ℝ :=
  -- Eq. 16 - the log drying rate
  let rk := 1.894 * (temp + 1.1) * (100 - rh) * ell01.getD mon 0 * 1e-04
  if lat_adjust then
    let rk := if lat > 10 then
        (if lat ≤ 30 then
          1.894 * (temp + 1.1) * (100 - rh) * ell02.getD mon 0 * 1e-04
        else rk)
      else rk
    let rk := if lat > -30 then
        (if lat ≤ -10 then
          1.894 * (temp + 1.1) * (100 - rh) * ell03.getD mon 0 * 1e-04
        else rk)
      else rk
    let rk := if lat ≥ -90 then
        (if lat ≤ -30 then
          1.894 * (temp + 1.1) * (100 - rh) * ell04.getD mon 0 * 1e-04
        else rk)
      else rk
    let rk := if lat > -10 then
        (if lat ≤ 10 then
          1.894 * (temp + 1.1) * (100 - rh) * 9 * 1e-04
        else rk)
      else rk
    rk
  else rk

/-- Element-wise numeric body of `dmc_arr` (fwi_numpy.py lines 245-318),
after validation. -/
def dmcArrElt (dmc_yda temp rh prec lat : ℝ) (mon : ℕ)
    (lat_adjust : Bool) : ℝ :=
  -- constrain low end of temperature (equality test, unlike the scalar)
  let temp := if temp = 1.1 then -1.1 else temp
  let rk := dmcArrRk temp rh lat mon lat_adjust
  -- constrain P
  let pr := if prec ≤ 1.5 then dmc_yda else calc_rain prec dmc_yda
  let pr := if pr < 0 then 0 else pr
  -- calculate final P (DMC)
  let dmc1 := pr + rk
  if dmc1 < 0 then 0 else dmc1

/-- Element-wise zip of five equally-shaped arrays, the broadcasting shape of
`dmc_arr`'s array arguments. -/
def zipWith5 (f : ℝ → ℝ → ℝ → ℝ → ℝ → ℝ) :
    List ℝ → List ℝ → List ℝ → List ℝ → List ℝ → List ℝ
  | a :: as, b :: bs, c :: cs, d :: ds, e :: es =>
      f a b c d e :: zipWith5 f as bs cs ds es
  | _, _, _, _, _ => []

/-- `dmc_arr` (fwi_numpy.py lines 180-318) on lists: the `np.any` whole-array
validations (0-based month, checked `0 ≤ mon ≤ 11`; `mon < 0` is vacuous for
`ℕ`), then the element-wise body. -/
def dmc_arr (dmc_yda temp rh prec lat : List ℝ) (mon : ℕ)
    (lat_adjust : Bool := true) : Except Err (List ℝ) :=
  if dmc_yda.any (fun x => if x < 0 then true else false) then
    Except.error Err.domain
  else if rh.any (fun x => if x < 0 ∨ x > 100 then true else false) then
    Except.error Err.domain
  else if prec.any (fun x => if x < 0 then true else false) then
    Except.error Err.domain
  else if mon > 11 then Except.error Err.domain
  else Except.ok (zipWith5
    (fun a t r p l => dmcArrElt a t r p l mon lat_adjust)
    dmc_yda temp rh prec lat)

set_option maxHeartbeats 1000000 in
/-- The scalar sequential latitude-band override chain (fwi.py lines
168-172) and the array nested `np.where` chain (fwi_numpy.py lines 266-277)
select the same value, for any branch values: each nested pair of array
conditions tests exactly the conjunction the scalar condition tests. -/
theorem latChain_eq (lat e0 e2 e3 e4 e9 : ℝ) :
    (let rk := e0;
     let rk := if lat > 10 then (if lat ≤ 30 then e2 else rk) else rk;
     let rk := if lat > -30 then (if lat ≤ -10 then e3 else rk) else rk;
     let rk := if lat ≥ -90 then (if lat ≤ -30 then e4 else rk) else rk;
     let rk := if lat > -10 then (if lat ≤ 10 then e9 else rk) else rk;
     rk) =
    (let rk := e0;
     let rk := if 30 ≥ lat ∧ lat > 10 then e2 else rk;
     let rk := if -10 ≥ lat ∧ lat > -30 then e3 else rk;
     let rk := if -30 ≥ lat ∧ lat ≥ -90 then e4 else rk;
     let rk := if 10 ≥ lat ∧ lat > -10 then e9 else rk;
     rk) := by
  simp only [ite_and]
  split_ifs <;> rfl

/-- The array log drying rate at 0-based month `mon - 1` equals the scalar
log drying rate at 1-based month `mon`. -/
theorem dmcArrRk_eq (temp rh lat : ℝ) (mon : ℕ) (la : Bool) :
    dmcArrRk temp rh lat (mon - 1) la = dmcRk temp rh lat mon la := by
  cases la with
  | false => rfl
  | true => exact latChain_eq lat _ _ _ _ _

/-- The nesting of Eqs. 13a-13c differs between `dmc` (fwi.py lines 183-185)
and `calc_rain` (fwi_numpy.py lines 331-337) but selects the same
coefficient. -/
theorem dmcB_eq (a : ℝ) :
    (if a ≤ 65 then
      (if a ≤ 33 then 100 / (0.5 + 0.3 * a) else 14 - 1.3 * Real.log a)
    else 6.2 * Real.log a - 17.2) =
    (if a ≤ 33 then 100 / (0.5 + 0.3 * a)
     else if a ≤ 65 then 14 - 1.3 * Real.log a
     else 6.2 * Real.log a - 17.2) := by
  split_ifs <;> first | rfl | linarith

/-- Above the temperature floor, one element of `dmc_arr` at 0-based month
`mon - 1` computes exactly scalar `dmc`'s value at 1-based month `mon`. -/
theorem dmcArrElt_eq (a t r p l : ℝ) (mon : ℕ) (ht : 1.1 < t) :
    dmcArrElt a t r p l (mon - 1) true = dmcCompute a t r p l mon true := by
  have h1 : ¬t = 1.1 := by
    intro h
    rw [h] at ht
    exact absurd ht (lt_irrefl _)
  have h2 : ¬t < 1.1 := not_lt.mpr ht.le
  simp only [dmcArrElt, dmcCompute, calc_rain, if_neg h1, if_neg h2,
    dmcArrRk_eq, dmcB_eq]

/-- Claim C3 (amended): with the month translated between conventions and in
bounds, scalar `dmc` and `dmc_arr` on singleton arrays agree exactly (hence
within any tolerance) whenever `temp > 1.1`; on the low-temperature branch
`temp < 1.1` (and at `temp = 1.1`) the two differ in general. -/
theorem dmc_scalar_arr_agree_above_temp_floor (a t r p l : ℝ) (mon : ℕ)
    (ha : 0 ≤ a) (hr0 : 0 ≤ r) (hr1 : r ≤ 100) (hp : 0 ≤ p)
    (hm1 : 1 ≤ mon) (hm2 : mon ≤ 12) (ht : 1.1 < t) :
    ∃ v, dmc a t r p l mon true = Except.ok v ∧
      dmc_arr [a] [t] [r] [p] [l] (mon - 1) true = Except.ok [v] := by
  refine ⟨dmcCompute a t r p l mon true, ?_, ?_⟩
  · rw [dmc, if_neg (not_lt.mpr ha), if_neg (by push_neg; exact ⟨hr0, hr1⟩),
      if_neg (not_lt.mpr hp), if_neg (by push_neg; omega)]
  · rw [dmc_arr, if_neg (by simp [List.any] <;> linarith),
      if_neg (by simp [List.any] <;> constructor <;> linarith),
      if_neg (by simp [List.any] <;> linarith),
      if_neg (by omega)]
    rw [show zipWith5 (fun a t r p l => dmcArrElt a t r p l (mon - 1) true)
        [a] [t] [r] [p] [l] = [dmcArrElt a t r p l (mon - 1) true] from rfl,
      dmcArrElt_eq a t r p l mon ht]

/-- Witness for the amended C3 at `dmc_yda = 5`, `temp = 20`, `rh = 50`,
`prec = 0`, `lat = 46`, month July (scalar 7, array 6). -/
theorem dmc_scalar_arr_agree_above_temp_floor_witness :
    ∃ v, dmc 5 20 50 0 46 7 true = Except.ok v ∧
      dmc_arr [5] [20] [50] [0] [46] 6 true = Except.ok [v] :=
  dmc_scalar_arr_agree_above_temp_floor 5 20 50 0 46 7 (by norm_num)
    (by norm_num) (by norm_num) (by norm_num) (by norm_num) (by norm_num)
    (by norm_num)

/-- Counterexample for claim C3: on the low-temperature branch the scalar and
array DMC do not agree.  At `dmc_yda = 5`, `temp = 0 < 1.1`, `rh = 50`,
`prec = 0`, `lat = 46`, July: the scalar floors the temperature to `-1.1`
(`temp < 1.1` test) making the drying rate 0 and returns 5, while the array
floors only at `temp == 1.1`, keeps `temp = 0` and returns
`5 + 1.894 * 1.1 * 50 * 12.4 * 1e-04 = 5.1291708`, a relative deviation far
above `1e-9`. -/
theorem dmc_arr_low_temp_disagrees :
    dmc 5 0 50 0 46 7 true = Except.ok 5 ∧
      dmc_arr [5] [0] [50] [0] [46] 6 true = Except.ok [5.1291708] ∧
      1e-09 * 5 < |(5.1291708 : ℝ) - 5| := by
  refine ⟨?_, ?_,
    by rw [abs_of_pos (by norm_num : (0 : ℝ) < 5.1291708 - 5)]; norm_num⟩
  · rw [dmc, if_neg (by norm_num), if_neg (by norm_num), if_neg (by norm_num),
      if_neg (by norm_num)]
    have hrk : dmcRk (-1.1) 50 46 7 true = 0 := by
      simp only [dmcRk]
      norm_num
    rw [dmcCompute, if_pos (by norm_num : (0 : ℝ) < 1.1), hrk]
    norm_num
  · rw [dmc_arr, if_neg (by simp [List.any] <;> norm_num),
      if_neg (by simp [List.any] <;> norm_num),
      if_neg (by simp [List.any] <;> norm_num), if_neg (by norm_num)]
    have hrk : dmcArrRk 0 50 46 6 true = 1.894 * 1.1 * 50 * 12.4 * 1e-04 := by
      simp only [dmcArrRk]
      norm_num [ell01]
    rw [show zipWith5 (fun a t r p l => dmcArrElt a t r p l 6 true)
        [5] [0] [50] [0] [46] = [dmcArrElt 5 0 50 0 46 6 true] from rfl]
    rw [dmcArrElt, if_neg (by norm_num : ¬(0 : ℝ) = 1.1), hrk]
    norm_num

/-- The five latitude-band predicates of scalar `dmc` (fwi.py lines 168-172):
the four override bands in source order, then the base band (no override
matches, within `[-90, 90]` exactly `lat > 30`). -/
def dmcBand (i : Fin 5) (lat : ℝ) : Prop :=
  if i.val = 0 then 30 ≥ lat ∧ lat > 10
  else if i.val = 1 then -10 ≥ lat ∧ lat > -30
  else if i.val = 2 then -30 ≥ lat ∧ lat ≥ -90
  else if i.val = 3 then 10 ≥ lat ∧ lat > -10
  else lat > 30

/-- The log drying rate each band's rule assigns (fwi.py lines 166-172). -/
def dmcBandRate (i : Fin 5) (temp rh : ℝ) (mon : ℕ) : ℝ :=
  if i.val = 0 then 1.894 * (temp + 1.1) * (100 - rh) * ell02.getD (mon - 1) 0 * 1e-04
  else if i.val = 1 then 1.894 * (temp + 1.1) * (100 - rh) * ell03.getD (mon - 1) 0 * 1e-04
  else if i.val = 2 then 1.894 * (temp + 1.1) * (100 - rh) * ell04.getD (mon - 1) 0 * 1e-04
  else if i.val = 3 then 1.894 * (temp + 1.1) * (100 - rh) * 9 * 1e-04
  else 1.894 * (temp + 1.1) * (100 - rh) * ell01.getD (mon - 1) 0 * 1e-04

/-- When no override band matches, the log drying rate keeps the base
Eq. 16 value from the 46N table `ell01`. -/
theorem dmcRk_no_override (temp rh lat : ℝ) (mon : ℕ)
    (n1 : ¬(30 ≥ lat ∧ lat > 10)) (n2 : ¬(-10 ≥ lat ∧ lat > -30))
    (n3 : ¬(-30 ≥ lat ∧ lat ≥ -90)) (n4 : ¬(10 ≥ lat ∧ lat > -10)) :
    dmcRk temp rh lat mon true =
      1.894 * (temp + 1.1) * (100 - rh) * ell01.getD (mon - 1) 0 * 1e-04 := by
  simp only [dmcRk, if_neg n1, if_neg n2, if_neg n3, if_neg n4, if_true]

/-- The five latitude bands of `dmcBand` are pairwise disjoint: no latitude
satisfies two of them. -/
theorem dmcBand_unique (lat : ℝ) (i j : Fin 5)
    (hi : dmcBand i lat) (hj : dmcBand j lat) : i = j := by
  fin_cases i <;> fin_cases j <;>
    simp only [dmcBand, Fin.isValue] at hi hj <;>
    norm_num at hi hj <;>
    first
      | rfl
      | (exfalso; first
          | linarith [hi.1, hi.2, hj.1, hj.2]
          | linarith [hi.1, hi.2, hj]
          | linarith [hi, hj.1, hj.2]
          | linarith [hi, hj])

/-- Claim C9: for every latitude in `[-90, 90]` with `lat_adjust = True`,
exactly one of scalar `dmc`'s five latitude-band rules applies — the four
override bands `(10,30]`, `(-30,-10]`, `[-90,-30]`, `(-10,10]` and the base
band `lat > 30` are pairwise disjoint and cover `[-90,90]` — and the rule
that applies determines the log drying rate `rk`. -/
theorem dmc_latitude_bands_partition (lat : ℝ)
    (h0 : -90 ≤ lat) (h1 : lat ≤ 90) :
    ∃! i : Fin 5, dmcBand i lat ∧
      ∀ temp rh mon, dmcRk temp rh lat mon true = dmcBandRate i temp rh mon := by
  have hexists : ∃ i : Fin 5, dmcBand i lat ∧
      ∀ temp rh mon, dmcRk temp rh lat mon true = dmcBandRate i temp rh mon := by
    rcases lt_or_le (30 : ℝ) lat with hr | hr
    · -- base band: lat > 30
      refine ⟨4, by simp only [dmcBand]; norm_num; exact hr, ?_⟩
      intro temp rh mon
      rw [dmcRk_no_override temp rh lat mon (fun h => absurd h.1 (by push_neg; exact hr))
        (fun h => absurd h.1 (by push_neg; linarith))
        (fun h => absurd h.1 (by push_neg; linarith))
        (fun h => absurd h.1 (by push_neg; linarith))]
      simp only [dmcBandRate]
      norm_num [show ((4 : Fin 5) : ℕ) = 4 from rfl]
    rcases lt_or_le (10 : ℝ) lat with hr2 | hr2
    · -- band (10, 30]
      refine ⟨0, by simp only [dmcBand]; norm_num; exact ⟨hr, hr2⟩, ?_⟩
      intro temp rh mon
      simp only [dmcRk, if_pos (show 30 ≥ lat ∧ lat > 10 from ⟨hr, hr2⟩),
        if_neg (show ¬(-10 ≥ lat ∧ lat > -30) from fun h => by linarith [h.1]),
        if_neg (show ¬(-30 ≥ lat ∧ lat ≥ -90) from fun h => by linarith [h.1]),
        if_neg (show ¬(10 ≥ lat ∧ lat > -10) from fun h => by linarith [h.1]),
        if_true, dmcBandRate]
      norm_num [show ((0 : Fin 5) : ℕ) = 0 from rfl]
    rcases lt_or_le (-10 : ℝ) lat with hr3 | hr3
    · -- band (-10, 10]
      refine ⟨3, by simp only [dmcBand]; norm_num; exact ⟨hr2, hr3⟩, ?_⟩
      intro temp rh mon
      simp only [dmcRk, if_neg (show ¬(30 ≥ lat ∧ lat > 10) from fun h => by linarith [h.2]),
        if_neg (show ¬(-10 ≥ lat ∧ lat > -30) from fun h => by linarith [h.1]),
        if_neg (show ¬(-30 ≥ lat ∧ lat ≥ -90) from fun h => by linarith [h.1]),
        if_pos (show 10 ≥ lat ∧ lat > -10 from ⟨hr2, hr3⟩),
        if_true, dmcBandRate]
      norm_num [show ((3 : Fin 5) : ℕ) = 3 from rfl]
    rcases lt_or_le (-30 : ℝ) lat with hr4 | hr4
    · -- band (-30, -10]
      refine ⟨1, by simp only [dmcBand]; norm_num; exact ⟨hr3, hr4⟩, ?_⟩
      intro temp rh mon
      simp only [dmcRk, if_neg (show ¬(30 ≥ lat ∧ lat > 10) from fun h => by linarith [h.2]),
        if_pos (show -10 ≥ lat ∧ lat > -30 from ⟨hr3, hr4⟩),
        if_neg (show ¬(-30 ≥ lat ∧ lat ≥ -90) from fun h => by linarith [h.1]),
        if_neg (show ¬(10 ≥ lat ∧ lat > -10) from fun h => by linarith [h.2]),
        if_true, dmcBandRate]
      norm_num [show ((1 : Fin 5) : ℕ) = 1 from rfl]
    · -- band [-90, -30]
      refine ⟨2, by simp only [dmcBand]; norm_num; exact ⟨hr4, h0⟩, ?_⟩
      intro temp rh mon
      simp only [dmcRk, if_neg (show ¬(30 ≥ lat ∧ lat > 10) from fun h => by linarith [h.2]),
        if_neg (show ¬(-10 ≥ lat ∧ lat > -30) from fun h => by linarith [h.2]),
        if_pos (show -30 ≥ lat ∧ lat ≥ -90 from ⟨hr4, h0⟩),
        if_neg (show ¬(10 ≥ lat ∧ lat > -10) from fun h => by linarith [h.2]),
        if_true, dmcBandRate]
      norm_num [show ((2 : Fin 5) : ℕ) = 2 from rfl]
  obtain ⟨i, hi⟩ := hexists
  exact ⟨i, hi, fun j hj => dmcBand_unique lat j i hj.1 hi.1⟩

/-- Witness for C9 at `lat = 46`: exactly one band rule applies there. -/
theorem dmc_latitude_bands_partition_witness :
    ∃! i : Fin 5, dmcBand i 46 ∧
      ∀ temp rh mon, dmcRk temp rh 46 mon true = dmcBandRate i temp rh mon :=
  dmc_latitude_bands_partition 46 (by norm_num) (by norm_num)

/-- Claim C10: scalar `dmc` accepts any real latitude; outside `[-90, 90]`
(e.g. `lat = -95` or `lat = 200`) no override band matches with
`lat_adjust = True`, so the drying rate keeps the base northern `ell01`
value and the call behaves exactly as at an in-range base-band latitude
such as 46. -/
theorem dmc_out_of_range_latitude_base (a t r p lat : ℝ) (mon : ℕ)
    (hlat : lat < -90 ∨ 90 < lat) (ha : 0 ≤ a) (hr0 : 0 ≤ r) (hr1 : r ≤ 100)
    (hp : 0 ≤ p) (hm1 : 1 ≤ mon) (hm2 : mon ≤ 12) :
    dmc a t r p lat mon true = Except.ok (dmcCompute a t r p 46 mon true) ∧
      dmc a t r p lat mon true = dmc a t r p 46 mon true := by
  have hno : ∀ temp, dmcRk temp r lat mon true =
      1.894 * (temp + 1.1) * (100 - r) * ell01.getD (mon - 1) 0 * 1e-04 := by
    intro temp
    rcases hlat with h | h
    · exact dmcRk_no_override temp r lat mon
        (fun hx => by linarith [hx.2]) (fun hx => by linarith [hx.2])
        (fun hx => by linarith [hx.2]) (fun hx => by linarith [hx.2])
    · exact dmcRk_no_override temp r lat mon
        (fun hx => by linarith [hx.1]) (fun hx => by linarith [hx.1])
        (fun hx => by linarith [hx.1]) (fun hx => by linarith [hx.1])
  have h46 : ∀ temp, dmcRk temp r (46 : ℝ) mon true =
      1.894 * (temp + 1.1) * (100 - r) * ell01.getD (mon - 1) 0 * 1e-04 := by
    intro temp
    exact dmcRk_no_override temp r 46 mon
      (fun hx => by linarith [hx.1]) (fun hx => by linarith [hx.1])
      (fun hx => by linarith [hx.1]) (fun hx => by linarith [hx.1])
  have hcomp : dmcCompute a t r p lat mon true = dmcCompute a t r p 46 mon true := by
    simp only [dmcCompute, hno, h46]
  constructor
  · rw [dmc, if_neg (not_lt.mpr ha), if_neg (by push_neg; exact ⟨hr0, hr1⟩),
      if_neg (not_lt.mpr hp), if_neg (by push_neg; omega), hcomp]
  · rw [dmc, dmc, hcomp]

/-- Witness for C10 at `lat = 200` versus the reference `lat = 46`. -/
theorem dmc_out_of_range_latitude_base_witness :
    dmc 5 20 50 0 200 7 true = Except.ok (dmcCompute 5 20 50 0 46 7 true) ∧
      dmc 5 20 50 0 200 7 true = dmc 5 20 50 0 46 7 true :=
  dmc_out_of_range_latitude_base 5 20 50 0 200 7 (Or.inr (by norm_num))
    (by norm_num) (by norm_num) (by norm_num) (by norm_num) (by norm_num)
    (by norm_num)

/-- DC day-length factor table, north of 20N (fwi.py line 252). -/
def fl01 : List ℝ := [-1.6, -1.6, -1.6, 0.9, 3.8, 5.8, 6.4, 5, 2.4, 0.4, -1.6, -1.6]

/-- DC day-length factor table, south of 20S (fwi.py line 254). -/
def fl02 : List ℝ := [6.4, 5, 2.4, 0.4, -1.6, -1.6, -1.6, -1.6, -1.6, 0.9, 3.8, 5.8]

/-- Scalar `dc` (fwi.py lines 197-279): validation (1-based month), then the
numeric body.  Table subscripts are fallible (`tableGet`): the base table is
read at `fl01[mon - 1]` but the southern branch reads `fl02[mon]`
(fwi.py line 262) — the index written in the source, not `mon - 1`. -/
def dc (dc_yda temp rh prec lat : ℝ) (mon : ℕ)
    (lat_adjust : Bool := true) : Except Err ℝ :=
  if dc_yda < 0 then Except.error Err.domain
  else if rh < 0 ∨ rh > 100 then Except.error Err.domain
  else if prec < 0 then Except.error Err.domain
  else if mon < 1 ∨ mon > 12 then Except.error Err.domain
  else
    -- constrain temperature (equality test in the source)
    let temp := if temp = 2.8 then -2.8 else temp
    do
    -- Eq. 22 - potential evapotranspiration
    let f1 ← tableGet fl01 (mon - 1)
    let pe := (0.36 * (temp + 2.8) + f1) / 2
    -- day length factor adjustment by latitude
    let pe ←
      if lat_adjust then do
        let pe ←
          if lat ≤ -20 then do
            let f2 ← tableGet fl02 mon
            pure ((0.36 * (temp + 2.8) + f2) / 2)
          else pure pe
        let pe := if -20 < lat ∧ lat ≤ 20 then (0.36 * (temp + 2.8) + 1.4) / 2 else pe
        pure pe
      else pure pe
    -- cap potential evapotranspiration at 0
    let pe := if pe < 0 then 0 else pe
    let ra := prec
    -- Eq. 18 - effective rainfall
    let rw := 0.83 * ra - 1.27
    -- Eq. 19
    let smi := 800 * Real.exp (-1 * dc_yda / 400)
    -- alteration to Eq. 21
    let dr0 := dc_yda - 400 * Real.log (1 + 3.937 * rw / smi)
    let dr0 := if dr0 < 0 then 0 else dr0
    -- if precip is less than 2.8 then use yesterday's DC
    let dr := if prec ≤ 2.8 then dc_yda else dr0
    -- alteration to Eq. 23
    let dc1 := dr + pe
    pure (if dc1 < 0 then 0 else dc1)

/-- Claim C2: `dc` is claimed to stay inside its 12-entry southern day-length
table for every valid month; the code, however, subscripts `fl02[mon]` with
the 1-based month, so the valid input `dc_yda = 15`, `temp = 20`, `rh = 50`,
`prec = 0`, `lat = -30`, `mon = 12` reads index 12 of a 12-entry list and
raises `IndexError` instead of returning a value. -/
theorem dc_mon12_south_index_error :
    dc 15 20 50 0 (-30) 12 true = Except.error Err.indexError := by
  rw [dc, if_neg (by norm_num), if_neg (by norm_num), if_neg (by norm_num),
    if_neg (by norm_num)]
  rw [show tableGet fl01 (12 - 1) = Except.ok (-1.6) from rfl,
    show tableGet fl02 12 = Except.error Err.indexError from rfl]
  norm_num [Except.bind]
  rfl

end

end Cffdrs

